import Mathlib

/-!
Shallow embedding of the iProov WebCodecs liveness-challenge pipeline
(`WebCodecsOrchestrator`, `FrameCaptureService`, `VideoEncoderService`,
`VideoDecoderService`, `ScreenFlashController`, `OpenAIFaceDetectionService`).

Frames, encoded chunks and media-stream tracks are explicit values; mutable
service objects become explicit state records passed through each operation;
`throw` becomes an `Option`/`Except` error component.  The host WebCodecs
codec runtimes (the browser's `VideoEncoder`/`VideoDecoder` objects) are not
part of the repository and are modelled from the spec where noted.
-/

/-- Kind of an encoded video chunk (`EncodedVideoChunk.type`). -/
inductive ChunkType
  | key
  | delta
deriving DecidableEq, Repr

/-- A `VideoFrame`: a timestamped pixel snapshot with an explicit closed flag. -/
structure VideoFrame where
  timestamp : Nat
  closed : Bool
deriving DecidableEq, Repr

/-- `VideoFrame.close()`: releases the frame. -/
def VideoFrame.close (f : VideoFrame) : VideoFrame :=
  { f with closed := true }

/-- `VideoFrame.clone()`: a second, independently owned copy of the content. -/
def VideoFrame.clone (f : VideoFrame) : VideoFrame :=
  { timestamp := f.timestamp, closed := false }

/-- An entry of `VideoEncoderService.encodedChunks` (`IEncodedChunk`). -/
structure EncodedChunk where
  timestamp : Nat
  type : ChunkType
deriving DecidableEq, Repr

/-- A `MediaStreamTrack` with its stopped state. -/
structure MediaStreamTrack where
  id : Nat
  stopped : Bool
deriving DecidableEq, Repr

/-- `MediaStreamTrack.stop()`. -/
def MediaStreamTrack.stop (t : MediaStreamTrack) : MediaStreamTrack :=
  { t with stopped := true }

/-- A `MediaStream`: its list of tracks. -/
structure MediaStream where
  tracks : List MediaStreamTrack
deriving DecidableEq, Repr

/-- State of a host WebCodecs codec object (`VideoEncoder.state` /
`VideoDecoder.state` as observed by the services: `configured` or `closed`;
an `unconfigured` codec never escapes `initialize` in this codebase). -/
inductive CodecState
  | configured
  | closed
deriving DecidableEq, Repr

/-- Modelled from the spec: the browser's `VideoEncoder` runtime is not part of
the repository.  Per the spec's Encoder Adapter contract — chunk order equals
submission order, each submitted frame produces its corresponding chunk, and a
chunk is independently decodable (`key`) exactly when the keyframe flag was
requested — each `encode(frame, \x7bkeyFrame\x7d)` call yields one chunk
carrying the frame's timestamp, of kind `key` iff `keyFrame` was set. -/
def hostEncode (frame : VideoFrame) (keyFrame : Bool) : EncodedChunk :=
  { timestamp := frame.timestamp, type := if keyFrame then .key else .delta }

/-- Modelled from the spec: the browser's `VideoDecoder` runtime is not part of
the repository.  Per the spec's Decoder/Renderer contract (chunks are decoded
in submission order, one output frame per chunk), decoding a chunk yields one
frame carrying the chunk's timestamp. -/
def hostDecode (chunk : EncodedChunk) : VideoFrame :=
  { timestamp := chunk.timestamp, closed := false }

/-! ## VideoEncoderService -/

/-- Errors thrown by `VideoEncoderService` (`Codec ... is not supported`,
`Encoder not initialized`, `Encoder is in ... state` / `Cannot flush encoder
in ... state`). -/
inductive EncoderError
  | unsupportedCodec
  | notInitialized
  | badState (s : CodecState)
deriving DecidableEq, Repr

/-- Mutable state of `VideoEncoderService`: the held `VideoEncoder` (if any)
and the accumulated `encodedChunks`. -/
structure VideoEncoderService where
  encoder : Option CodecState
  encodedChunks : List EncodedChunk
deriving DecidableEq, Repr

/-- A freshly constructed `VideoEncoderService` (both fields start empty). -/
def VideoEncoderService.fresh : VideoEncoderService :=
  { encoder := none, encodedChunks := [] }

/-- `VideoEncoderService.initialize(config)`: checks codec support (an input
from the host runtime), clears `encodedChunks`, creates and configures the
encoder.  On unsupported config it throws before touching any state. -/
def VideoEncoderService.initialize (s : VideoEncoderService) (supported : Bool) :
    VideoEncoderService × Option EncoderError :=
  if supported then
    ({ encoder := some .configured, encodedChunks := [] }, none)
  else
    (s, some .unsupportedCodec)

/-- `VideoEncoderService.handleEncodedChunk`: copies the chunk and appends it
to `encodedChunks`. -/
def VideoEncoderService.handleEncodedChunk (s : VideoEncoderService)
    (chunk : EncodedChunk) : VideoEncoderService :=
  { s with encodedChunks := s.encodedChunks ++ [chunk] }

/-- `VideoEncoderService.encodeFrame(frame, keyFrame)`: throws
`Encoder not initialized` when no encoder exists, throws a bad-state error
when the encoder is not `configured`; otherwise submits the frame (the host
emits the chunk into `handleEncodedChunk`) and then closes the frame.
Returns the updated service state, the input frame's resulting state, and the
error, if any. -/
def VideoEncoderService.encodeFrame (s : VideoEncoderService) (frame : VideoFrame)
    (keyFrame : Bool) : VideoEncoderService × VideoFrame × Option EncoderError :=
  match s.encoder with
  | none => (s, frame, some .notInitialized)
  | some st =>
    if st = .configured then
      (s.handleEncodedChunk (hostEncode frame keyFrame), frame.close, none)
    else
      (s, frame, some (.badState st))

/-- `VideoEncoderService.flush()`: throws `Encoder not initialized` or a
bad-state error; otherwise awaits the host drain barrier (a no-op on the
accumulated chunks, which the host has already delivered in order). -/
def VideoEncoderService.flush (s : VideoEncoderService) :
    VideoEncoderService × Option EncoderError :=
  match s.encoder with
  | none => (s, some .notInitialized)
  | some st =>
    if st = .configured then (s, none) else (s, some (.badState st))

/-- `VideoEncoderService.getEncodedChunks()`. -/
def VideoEncoderService.getEncodedChunks (s : VideoEncoderService) : List EncodedChunk :=
  s.encodedChunks

/-- `VideoEncoderService.dispose()`: closes the encoder if it is not already
closed, drops it, and clears `encodedChunks`. -/
def VideoEncoderService.dispose (s : VideoEncoderService) : VideoEncoderService :=
  let s1 :=
    match s.encoder with
    | some _ => { s with encoder := none }
    | none => s
  { s1 with encodedChunks := [] }

/-! ## FrameCaptureService -/

/-- Errors thrown by `FrameCaptureService` (`No video tracks found in media
stream`, `Timeout waiting for first frame`, `No frame available to capture`). -/
inductive CaptureError
  | noVideoTracks
  | firstFrameTimeout
  | noFrameAvailable
deriving DecidableEq, Repr

/-- Mutable state of `FrameCaptureService`: the held video track, processor,
reader, the single current-frame slot and the background-read flag. -/
structure FrameCaptureService where
  videoTrack : Option Nat
  hasProcessor : Bool
  hasReader : Bool
  currentFrame : Option VideoFrame
  isReading : Bool
deriving DecidableEq, Repr

/-- A freshly constructed `FrameCaptureService` (all fields start empty). -/
def FrameCaptureService.fresh : FrameCaptureService :=
  { videoTrack := none, hasProcessor := false, hasReader := false,
    currentFrame := none, isReading := false }

/-- `FrameCaptureService.initialize(stream)`: takes the stream's first video
track (throwing if there is none), creates the track processor and reader,
starts the background read loop, and polls until a first frame has been
observed — `firstFrame` is the frame the background reader delivered within
the 5s bound, or `none` when the bound elapsed, in which case the timeout
error is thrown. -/
def FrameCaptureService.initialize (s : FrameCaptureService) (stream : MediaStream)
    (firstFrame : Option VideoFrame) : FrameCaptureService × Option CaptureError :=
  match stream.tracks with
  | [] => (s, some .noVideoTracks)
  | t :: _ =>
    let s1 := { s with videoTrack := some t.id, hasProcessor := true,
                       hasReader := true, isReading := true }
    match firstFrame with
    | none => (s1, some .firstFrameTimeout)
    | some f => ({ s1 with currentFrame := some f }, none)

/-- One delivery of the background `readFrames` loop: while the service is
reading and holds a reader, the previous current frame is closed and replaced
by the newly read frame. -/
def FrameCaptureService.producerDelivers (s : FrameCaptureService)
    (f : VideoFrame) : FrameCaptureService :=
  if s.isReading && s.hasReader then { s with currentFrame := some f } else s

/-- `FrameCaptureService.captureFrame()`: throws `No frame available to
capture` when the current-frame slot is empty; otherwise returns a clone of
the current frame (the held original is untouched). -/
def FrameCaptureService.captureFrame (s : FrameCaptureService) :
    Except CaptureError VideoFrame :=
  match s.currentFrame with
  | none => .error .noFrameAvailable
  | some f => .ok f.clone

/-- `FrameCaptureService.dispose()`: stops the background read, cancels and
drops the reader, closes and drops the held frame, stops and drops the video
track, and drops the processor. -/
def FrameCaptureService.dispose (s : FrameCaptureService) : FrameCaptureService :=
  let s1 := { s with isReading := false }
  let s2 := if s1.hasReader then { s1 with hasReader := false } else s1
  let s3 :=
    match s2.currentFrame with
    | some _ => { s2 with currentFrame := none }
    | none => s2
  let s4 :=
    match s3.videoTrack with
    | some _ => { s3 with videoTrack := none }
    | none => s3
  { s4 with hasProcessor := false }

/-! ## VideoDecoderService -/

/-- Errors thrown by `VideoDecoderService` (`Decoder codec ... is not
supported`, `Decoder not initialized`). -/
inductive DecoderError
  | unsupportedCodec
  | notInitialized
deriving DecidableEq, Repr

/-- Mutable state of `VideoDecoderService`: the held `VideoDecoder` (if any)
and the buffered `decodedFrames`. -/
structure VideoDecoderService where
  decoder : Option CodecState
  decodedFrames : List VideoFrame
deriving DecidableEq, Repr

/-- A freshly constructed `VideoDecoderService`. -/
def VideoDecoderService.fresh : VideoDecoderService :=
  { decoder := none, decodedFrames := [] }

/-- `VideoDecoderService.initialize(codec, width, height)`: checks decoder
codec support (an input from the host runtime), clears `decodedFrames`,
creates and configures the decoder. -/
def VideoDecoderService.initialize (s : VideoDecoderService) (supported : Bool) :
    VideoDecoderService × Option DecoderError :=
  if supported then
    ({ decoder := some .configured, decodedFrames := [] }, none)
  else
    (s, some .unsupportedCodec)

/-- `VideoDecoderService.decodeAndRender(chunks, canvas)`: throws `Decoder not
initialized` when no decoder exists; otherwise submits every chunk in order
(the host delivers one decoded frame per chunk into `decodedFrames`), awaits
the drain, then runs `renderFrames`: with zero decoded frames it warns and
returns; otherwise it draws each buffered frame to the canvas in order (with
the 500ms inter-frame pacing sleep), closing each, and clears the buffer.
Returns the updated service state and, on success, the timestamps drawn, in
order. -/
def VideoDecoderService.decodeAndRender (s : VideoDecoderService)
    (chunks : List EncodedChunk) :
    VideoDecoderService × Except DecoderError (List Nat) :=
  match s.decoder with
  | none => (s, .error .notInitialized)
  | some _ =>
    let s1 := { s with decodedFrames := s.decodedFrames ++ chunks.map hostDecode }
    if s1.decodedFrames.isEmpty then
      (s1, .ok [])
    else
      ({ s1 with decodedFrames := [] }, .ok (s1.decodedFrames.map VideoFrame.timestamp))

/-- `VideoDecoderService.dispose()`: closes any buffered frames, clears the
buffer, closes the decoder if not already closed, and drops it. -/
def VideoDecoderService.dispose (s : VideoDecoderService) : VideoDecoderService :=
  let s1 := { s with decodedFrames := [] }
  match s1.decoder with
  | some _ => { s1 with decoder := none }
  | none => s1

/-! ## ScreenFlashController -/

/-- The flash overlay `div`: whether it is displayed and whether its
background color is white (`FlashColor.WHITE`) rather than black. -/
structure FlashOverlay where
  displayed : Bool
  white : Bool
deriving DecidableEq, Repr

/-- Mutable state of `ScreenFlashController`: the overlay, if not disposed. -/
structure ScreenFlashController where
  overlay : Option FlashOverlay
deriving DecidableEq, Repr

/-- A freshly constructed `ScreenFlashController`: the constructor creates the
overlay hidden (`display: none`) with no background color set. -/
def ScreenFlashController.fresh : ScreenFlashController :=
  { overlay := some { displayed := false, white := false } }

/-- `ScreenFlashController.setColor(color)`: warns and does nothing when the
overlay is gone; otherwise sets the background color. -/
def ScreenFlashController.setColor (s : ScreenFlashController) (white : Bool) :
    ScreenFlashController :=
  match s.overlay with
  | none => s
  | some o => { overlay := some { o with white := white } }

/-- `ScreenFlashController.show()`. -/
def ScreenFlashController.show (s : ScreenFlashController) : ScreenFlashController :=
  match s.overlay with
  | none => s
  | some o => { overlay := some { o with displayed := true } }

/-- `ScreenFlashController.hide()`. -/
def ScreenFlashController.hide (s : ScreenFlashController) : ScreenFlashController :=
  match s.overlay with
  | none => s
  | some o => { overlay := some { o with displayed := false } }

/-- `ScreenFlashController.dispose()`: removes the overlay from the document
if it is still attached. -/
def ScreenFlashController.dispose (s : ScreenFlashController) : ScreenFlashController :=
  match s.overlay with
  | some _ => { overlay := none }
  | none => s

/-! ## OpenAIFaceDetectionService -/

/-- `IFaceDetectionResult`. -/
structure IFaceDetectionResult where
  isValid : Bool
  hasFace : Bool
  isFacingCamera : Bool
  wearingGlasses : Bool
  wearingHeadwear : Bool
  confidence : Rat
  reason : String
deriving DecidableEq, Repr

/-- The outcome of one classifier call as seen by `analyzeFrame`'s `try`
block: a well-formed API response carrying the parsed fields, or one of the
failure shapes the code distinguishes. -/
inductive ClassifierOutcome
  | responds (hasFace isFacingCamera : Bool) (wearingGlasses wearingHeadwear : Option Bool)
      (confidence : Rat) (reason : Option String)
  | apiError (msg : String)
  | parseFailure (content : String)
  | missingFields
  | timeout
  | otherFailure (msg : String)
deriving DecidableEq, Repr

/-- Errors re-thrown out of `analyzeFrame`'s `catch` block (`OpenAI API key
not set`, `OpenAI API request timed out after 30 seconds`, `Invalid or missing
OpenAI API key...`, `OpenAI API rate limit exceeded...`). -/
inductive AnalyzeError
  | apiKeyNotSet
  | timedOut
  | invalidApiKey
  | rateLimited
deriving DecidableEq, Repr

/-- Substring test used to model the `errorMessage.includes(...)` checks. -/
def strContains (s pat : String) : Bool :=
  decide (pat.toList <:+: s.toList)

/-- The `error.message` string produced by each failure shape inside the `try`
block, matching the `throw new Error(...)` sites of `analyzeFrame`. -/
def ClassifierOutcome.message : ClassifierOutcome → String
  | .apiError msg => "OpenAI API error: " ++ msg
  | .parseFailure content => "Failed to parse OpenAI response as JSON: " ++ content.take 100
  | .missingFields => "OpenAI response missing required fields (hasFace, isFacingCamera, confidence)"
  | .otherFailure msg => msg
  | _ => ""

/-- `OpenAIFaceDetectionService.analyzeFrame(frame)`: throws when no API key
is set; on a well-formed response builds the detection result (defaulting the
optional booleans, clamping confidence to 0..1, `isValid = hasFace ∧
isFacingCamera`); in the `catch` block, re-throws timeouts (`AbortError`),
API-key/authorization errors and rate-limit errors, and converts every other
failure into a non-fatal all-false result whose reason records the message. -/
def analyzeFrame (apiKey : String) (outcome : ClassifierOutcome) :
    Except AnalyzeError IFaceDetectionResult :=
  if apiKey = "" then .error .apiKeyNotSet
  else
    match outcome with
    | .responds hf fc wg wh conf reason =>
        .ok { hasFace := hf, isFacingCamera := fc,
              wearingGlasses := wg.getD false, wearingHeadwear := wh.getD false,
              confidence := max 0 (min 1 conf),
              isValid := hf && fc,
              reason := reason.getD "No reason provided" }
    | .timeout => .error .timedOut
    | e =>
        let msg := e.message
        if strContains msg "API key" || strContains msg "Unauthorized" then
          .error .invalidApiKey
        else if strContains msg "rate limit" || strContains msg "429" then
          .error .rateLimited
        else
          .ok { hasFace := false, isFacingCamera := false, wearingGlasses := false,
                wearingHeadwear := false, confidence := 0, isValid := false,
                reason := "Analysis failed: " ++ msg }

/-! ## WebCodecsOrchestrator -/

/-- `WebCodecsOrchestrator.FLASH_PATTERN`. -/
def FLASH_PATTERN : List Nat :=
  [0, 0, 1, 1, 0, 0, 1, 1, 0, 0, 1, 1, 0, 0, 1, 1, 0, 0, 1, 1]

/-- `WebCodecsOrchestrator.TOTAL_DURATION_MS`. -/
def TOTAL_DURATION_MS : Nat := 10000

/-- `WebCodecsOrchestrator.FRAME_COUNT`. -/
def FRAME_COUNT : Nat := 20

/-- `WebCodecsOrchestrator.FRAME_INTERVAL_MS = TOTAL_DURATION_MS / FRAME_COUNT`. -/
def FRAME_INTERVAL_MS : Nat := TOTAL_DURATION_MS / FRAME_COUNT

/-- `WebCodecsOrchestrator.FLASH_DISPLAY_DELAY_MS`. -/
def FLASH_DISPLAY_DELAY_MS : Nat := 50

/-- `WebCodecsOrchestrator.VALIDATION_FRAME_SAMPLING_RATE`. -/
def VALIDATION_FRAME_SAMPLING_RATE : Nat := 5

/-- Mutable state of `WebCodecsOrchestrator` together with its injected
(stateful) collaborator services.  `hasFaceDetection` records whether the
optional `faceDetectionService` collaborator is non-null; `apiKey` is that
collaborator's configured key. -/
structure WebCodecsOrchestrator where
  mediaStream : Option MediaStream
  validationResults : List IFaceDetectionResult
  capturedFramesForValidation : List VideoFrame
  frameCaptureService : FrameCaptureService
  encoderService : VideoEncoderService
  decoderService : VideoDecoderService
  flashController : ScreenFlashController
  hasFaceDetection : Bool
  apiKey : String
deriving DecidableEq, Repr

/-- Everything the run consumes from outside the orchestrator's own state:
the media stream the device manager produces (`none` = acquisition fails),
the first frame the background reader observes within the timeout bound
(`none` = source timeout), codec support answers from the host runtimes, the
step index before which the host encoder spontaneously leaves the
`configured` state (failure injection; `none` = never), the timestamp of the
background reader's latest frame at each capture point, and the classifier
outcome for each sampled-frame index. -/
structure RunEnv where
  mediaStream : Option MediaStream
  firstFrame : Option VideoFrame
  encoderSupported : Bool
  decoderSupported : Bool
  encoderDiesAt : Option Nat
  frameTimestamp : Nat → Nat
  classifierOutcome : Nat → ClassifierOutcome

/-- The error that aborts a run, as thrown from each phase
(`WebCodecsOrchestrator.execute`'s `catch` sees exactly one of these). -/
inductive RunError
  | deviceFailure
  | capture (e : CaptureError)
  | encoder (e : EncoderError)
  | decoder (e : DecoderError)
  | mediaStreamNotInitialized
  | noEncodedChunks
  | analyze (e : AnalyzeError)
deriving DecidableEq, Repr

/-- `WebCodecsOrchestrator.initializeCamera`: obtains the media stream from
the device manager (failing if it cannot), stores it, and initializes the
frame capture service on it. -/
def WebCodecsOrchestrator.initializeCamera (o : WebCodecsOrchestrator)
    (env : RunEnv) : WebCodecsOrchestrator × Option RunError :=
  match env.mediaStream with
  | none => (o, some .deviceFailure)
  | some stream =>
    let o1 := { o with mediaStream := some stream }
    let (fcs, err) := o1.frameCaptureService.initialize stream env.firstFrame
    ({ o1 with frameCaptureService := fcs }, err.map RunError.capture)

/-- `WebCodecsOrchestrator.initializeEncoder`: throws `Media stream not
initialized` when no stream is held; otherwise configures the encoder service
from the track settings. -/
def WebCodecsOrchestrator.initializeEncoder (o : WebCodecsOrchestrator)
    (env : RunEnv) : WebCodecsOrchestrator × Option RunError :=
  match o.mediaStream with
  | none => (o, some .mediaStreamNotInitialized)
  | some _ =>
    let (enc, err) := o.encoderService.initialize env.encoderSupported
    ({ o with encoderService := enc }, err.map RunError.encoder)

/-- One iteration of the capture loop (step `i`, pattern value `v`): set the
flash color, sleep the settle delay (accounted by the caller), let the
background reader deliver its latest frame, capture a clone, retain a further
clone for validation when a classifier is configured and `i` is a sampling
point, and encode the frame (keyframe iff `i = 0`).  `env.encoderDiesAt = some
i` injects a host encoder failure before the encode call. -/
def captureStep (env : RunEnv) (o : WebCodecsOrchestrator) (i v : Nat) :
    WebCodecsOrchestrator × Option RunError :=
  let o1 := { o with
    flashController := o.flashController.setColor (v != 0),
    frameCaptureService :=
      o.frameCaptureService.producerDelivers { timestamp := env.frameTimestamp i, closed := false } }
  match o1.frameCaptureService.captureFrame with
  | .error e => (o1, some (.capture e))
  | .ok frame =>
    let o2 :=
      if o1.hasFaceDetection && i % VALIDATION_FRAME_SAMPLING_RATE == 0 then
        { o1 with capturedFramesForValidation := o1.capturedFramesForValidation ++ [frame.clone] }
      else o1
    let o3 :=
      if env.encoderDiesAt = some i then
        { o2 with encoderService :=
            { o2.encoderService with encoder := o2.encoderService.encoder.map fun _ => .closed } }
      else o2
    let r := o3.encoderService.encodeFrame frame (i == 0)
    ({ o3 with encoderService := r.1 }, r.2.2.map RunError.encoder)

/-- The `for` loop of `captureAndEncodeFrames`, generalized over the pattern
tail and the per-step interval and settle delay (the code instantiates them
with `FRAME_INTERVAL_MS` and `FLASH_DISPLAY_DELAY_MS`).  Returns the final
orchestrator state, the total milliseconds slept, and the first error.  Every
step sleeps the settle delay before capturing; every step but the last also
sleeps `interval − settle` before the next step. -/
def captureLoop (env : RunEnv) (interval settle : Nat) :
    WebCodecsOrchestrator → List Nat → Nat →
    WebCodecsOrchestrator × Nat × Option RunError
  | o, [], _ => (o, 0, none)
  | o, v :: rest, i =>
    match captureStep env o i v with
    | (o1, some e) => (o1, settle, some e)
    | (o1, none) =>
      match rest with
      | [] => (o1, settle, none)
      | _ :: _ =>
        let r := captureLoop env interval settle o1 rest (i + 1)
        (r.1, settle + (interval - settle) + r.2.1, r.2.2)

/-- `WebCodecsOrchestrator.captureAndEncodeFrames`: shows the flash overlay,
clears the sampled-frame list, runs the capture loop over `FLASH_PATTERN`,
and — when the loop completed without throwing — hides the overlay and
flushes the encoder.  Returns the state, total milliseconds slept, and the
first error. -/
def WebCodecsOrchestrator.captureAndEncodeFrames (o : WebCodecsOrchestrator)
    (env : RunEnv) : WebCodecsOrchestrator × Nat × Option RunError :=
  let o1 := { o with flashController := o.flashController.show,
                     capturedFramesForValidation := [] }
  let r := captureLoop env FRAME_INTERVAL_MS FLASH_DISPLAY_DELAY_MS o1 FLASH_PATTERN 0
  match r.2.2 with
  | some e => (r.1, r.2.1, some e)
  | none =>
    let o2 := { r.1 with flashController := r.1.flashController.hide }
    let (enc, ferr) := o2.encoderService.flush
    ({ o2 with encoderService := enc }, r.2.1, ferr.map RunError.encoder)

/-- The `for` loop of `validateCapturedFrames`: frame `i` of the sampled list
is submitted to the classifier; a thrown analyzer error propagates out
immediately (no catch), otherwise the result is appended and the frame
closed.  Returns the results accumulated so far and the error, if any. -/
def validateGo (apiKey : String) (outcome : Nat → ClassifierOutcome) :
    List VideoFrame → Nat → List IFaceDetectionResult × Option AnalyzeError
  | [], _ => ([], none)
  | _ :: rest, i =>
    match analyzeFrame apiKey (outcome i) with
    | .error e => ([], some e)
    | .ok r =>
      let t := validateGo apiKey outcome rest (i + 1)
      (r :: t.1, t.2)

/-- `WebCodecsOrchestrator.validateCapturedFrames`: returns immediately when
no classifier is configured or no frames were sampled; otherwise resets
`validationResults` and runs the per-frame loop, clearing the sampled list
only after every frame succeeded. -/
def WebCodecsOrchestrator.validateCapturedFrames (o : WebCodecsOrchestrator)
    (env : RunEnv) : WebCodecsOrchestrator × Option RunError :=
  if o.hasFaceDetection = false ∨ o.capturedFramesForValidation = [] then
    (o, none)
  else
    let t := validateGo o.apiKey env.classifierOutcome o.capturedFramesForValidation 0
    match t.2 with
    | some e => ({ o with validationResults := t.1 }, some (.analyze e))
    | none => ({ o with validationResults := t.1, capturedFramesForValidation := [] }, none)

/-- `WebCodecsOrchestrator.decodeAndRender`: pulls the accumulated chunks,
throws `No encoded chunks available` when there are none, throws `Media
stream not initialized` when no stream is held, then initializes the decoder
service from the track settings and runs its `decodeAndRender`. -/
def WebCodecsOrchestrator.decodeAndRender (o : WebCodecsOrchestrator)
    (env : RunEnv) : WebCodecsOrchestrator × Option RunError :=
  let encodedChunks := o.encoderService.getEncodedChunks
  if encodedChunks = [] then (o, some .noEncodedChunks)
  else
    match o.mediaStream with
    | none => (o, some .mediaStreamNotInitialized)
    | some _ =>
      let (dec, err) := o.decoderService.initialize env.decoderSupported
      let o1 := { o with decoderService := dec }
      match err with
      | some e => (o1, some (.decoder e))
      | none =>
        let (dec2, res) := o1.decoderService.decodeAndRender encodedChunks
        let o2 := { o1 with decoderService := dec2 }
        match res with
        | .error e => (o2, some (.decoder e))
        | .ok _ => (o2, none)

/-- `WebCodecsOrchestrator.cleanup`: disposes the frame capture service,
encoder, decoder and flash controller, closes and clears any retained sampled
frames, stops every track of the held media stream, and drops the stream.
Returns the new state together with the (now stopped) track objects of the
stream it released. -/
def WebCodecsOrchestrator.cleanup (o : WebCodecsOrchestrator) :
    WebCodecsOrchestrator × List MediaStreamTrack :=
  let o1 := { o with frameCaptureService := o.frameCaptureService.dispose }
  let o2 := { o1 with encoderService := o1.encoderService.dispose }
  let o3 := { o2 with decoderService := o2.decoderService.dispose }
  let o4 := { o3 with flashController := o3.flashController.dispose }
  let o5 := { o4 with capturedFramesForValidation := [] }
  match o5.mediaStream with
  | some stream =>
      ({ o5 with mediaStream := none }, stream.tracks.map MediaStreamTrack.stop)
  | none => (o5, [])

/-- The `try` block of `WebCodecsOrchestrator.execute`: the five phases in
order, each aborting the rest on its first error (validation only runs when a
classifier collaborator is configured). -/
def WebCodecsOrchestrator.runPhases (o : WebCodecsOrchestrator) (env : RunEnv) :
    WebCodecsOrchestrator × Option RunError :=
  let s1 := o.initializeCamera env
  match s1.2 with
  | some e => (s1.1, some e)
  | none =>
    let s2 := s1.1.initializeEncoder env
    match s2.2 with
    | some e => (s2.1, some e)
    | none =>
      let s3 := s2.1.captureAndEncodeFrames env
      match s3.2.2 with
      | some e => (s3.1, some e)
      | none =>
        let s4 := s3.1.decodeAndRender env
        match s4.2 with
        | some e => (s4.1, some e)
        | none =>
          if s4.1.hasFaceDetection then s4.1.validateCapturedFrames env
          else (s4.1, none)

/-- `WebCodecsOrchestrator.execute`: runs the phases; on success continues
into the cleanup step, on a phase error the `catch` block runs the same
`cleanup` and re-throws the original error.  Returns the final state, the
stopped tracks, and the error the caller receives. -/
def WebCodecsOrchestrator.execute (o : WebCodecsOrchestrator) (env : RunEnv) :
    WebCodecsOrchestrator × List MediaStreamTrack × Option RunError :=
  let r := o.runPhases env
  let c := r.1.cleanup
  (c.1, c.2, r.2)

/-! ## Observations, specification helpers and concrete fixtures -/

/-- A `FrameCaptureService` holds no resources: nothing is being read, the
reader, frame slot, track and processor are all gone. -/
def FrameCaptureService.disposed (s : FrameCaptureService) : Prop :=
  s.isReading = false ∧ s.hasReader = false ∧ s.currentFrame = none ∧
  s.videoTrack = none ∧ s.hasProcessor = false

/-- A `VideoEncoderService` holds no resources. -/
def VideoEncoderService.disposed (s : VideoEncoderService) : Prop :=
  s.encoder = none ∧ s.encodedChunks = []

/-- A `VideoDecoderService` holds no resources. -/
def VideoDecoderService.disposed (s : VideoDecoderService) : Prop :=
  s.decoder = none ∧ s.decodedFrames = []

/-- A `ScreenFlashController` holds no overlay. -/
def ScreenFlashController.disposed (s : ScreenFlashController) : Prop :=
  s.overlay = none

/-- Boolean success test on `Except`. -/
def isOkB {ε α : Type} : Except ε α → Bool
  | .ok _ => true
  | .error _ => false

/-- A failure shape of a classifier call (everything but a well-formed
response). -/
def ClassifierOutcome.isFailure : ClassifierOutcome → Bool
  | .responds _ _ _ _ _ _ => false
  | _ => true

/-- The chunk sequence a successful capture loop accumulates when started at
step `i`: one chunk per pattern entry, carrying the background reader's
timestamp at that step, of kind `key` exactly at global step 0. -/
def expectedChunks (env : RunEnv) : Nat → List Nat → List EncodedChunk
  | _, [] => []
  | i, _ :: rest =>
    { timestamp := env.frameTimestamp i, type := if i == 0 then .key else .delta }
      :: expectedChunks env (i + 1) rest

/-- The frames a successful capture loop retains for validation when started
at step `i`: one clone per sampling point (steps divisible by
`VALIDATION_FRAME_SAMPLING_RATE`). -/
def expectedSamples (env : RunEnv) : Nat → List Nat → List VideoFrame
  | _, [] => []
  | i, _ :: rest =>
    (if i % VALIDATION_FRAME_SAMPLING_RATE == 0 then
       [{ timestamp := env.frameTimestamp i, closed := false }]
     else []) ++ expectedSamples env (i + 1) rest

/-- Number of sampling points among pattern steps starting at step `i`. -/
def sampleCount : Nat → List Nat → Nat
  | _, [] => 0
  | i, _ :: rest =>
    (if i % VALIDATION_FRAME_SAMPLING_RATE == 0 then 1 else 0) + sampleCount (i + 1) rest

/-- A one-track media stream used as a concrete fixture. -/
def sampleStream : MediaStream :=
  { tracks := [{ id := 7, stopped := false }] }

/-- A freshly constructed orchestrator with a configured classifier
collaborator, as built by the application's composition root. -/
def baseOrchestrator : WebCodecsOrchestrator :=
  { mediaStream := none, validationResults := [], capturedFramesForValidation := [],
    frameCaptureService := FrameCaptureService.fresh,
    encoderService := VideoEncoderService.fresh,
    decoderService := VideoDecoderService.fresh,
    flashController := ScreenFlashController.fresh,
    hasFaceDetection := true, apiKey := "k" }

/-- A well-formed classifier response fixture. -/
def respondsOutcome : ClassifierOutcome :=
  .responds true true none none 1 none

/-- A fully nominal environment: camera and first frame arrive, both codecs
supported, the encoder never dies, the reader's frame at step `i` has
timestamp `100 * i`, and every classifier call returns a well-formed
response. -/
def nominalEnv : RunEnv :=
  { mediaStream := some sampleStream,
    firstFrame := some { timestamp := 0, closed := false },
    encoderSupported := true, decoderSupported := true, encoderDiesAt := none,
    frameTimestamp := fun i => 100 * i,
    classifierOutcome := fun _ => respondsOutcome }

/-- Environment whose classifier calls all time out. -/
def timeoutEnv : RunEnv :=
  { nominalEnv with classifierOutcome := fun _ => .timeout }

/-- Environment whose host encoder dies before capture step 3. -/
def encoderDieEnv : RunEnv :=
  { nominalEnv with encoderDiesAt := some 3 }

/-- Environment where camera acquisition fails. -/
def noCameraEnv : RunEnv :=
  { nominalEnv with mediaStream := none }

/-- The orchestrator after the camera and encoder phases succeeded on the
nominal environment (the state in which the capture phase starts). -/
def readyOrchestrator : WebCodecsOrchestrator :=
  ((baseOrchestrator.initializeCamera nominalEnv).1.initializeEncoder nominalEnv).1

/-! ## Helper lemmas -/

theorem frameCapture_dispose_eq_fresh (s : FrameCaptureService) :
    s.dispose = FrameCaptureService.fresh := by
  cases s with
  | mk vt hp hr cf ir =>
    cases hr <;> cases cf <;> cases vt <;>
      simp [FrameCaptureService.dispose, FrameCaptureService.fresh]

theorem encoder_dispose_eq_fresh (s : VideoEncoderService) :
    s.dispose = VideoEncoderService.fresh := by
  cases s with
  | mk enc chunks =>
    cases enc <;> simp [VideoEncoderService.dispose, VideoEncoderService.fresh]

theorem decoder_dispose_eq_fresh (s : VideoDecoderService) :
    s.dispose = VideoDecoderService.fresh := by
  cases s with
  | mk dec frames =>
    cases dec <;> simp [VideoDecoderService.dispose, VideoDecoderService.fresh]

theorem flash_dispose_overlay_none (s : ScreenFlashController) :
    s.dispose = { overlay := none } := by
  cases s with
  | mk ov => cases ov <;> simp [ScreenFlashController.dispose]

theorem cleanup_spec (o : WebCodecsOrchestrator) :
    (o.cleanup).1.frameCaptureService.disposed ∧
    (o.cleanup).1.encoderService.disposed ∧
    (o.cleanup).1.decoderService.disposed ∧
    (o.cleanup).1.flashController.disposed ∧
    (o.cleanup).1.capturedFramesForValidation = [] ∧
    (o.cleanup).1.mediaStream = none ∧
    (∀ t ∈ (o.cleanup).2, t.stopped = true) ∧
    (∀ s, o.mediaStream = some s → (o.cleanup).2 = s.tracks.map MediaStreamTrack.stop) := by
  unfold WebCodecsOrchestrator.cleanup
  cases hm : o.mediaStream <;>
    simp [frameCapture_dispose_eq_fresh, encoder_dispose_eq_fresh,
          decoder_dispose_eq_fresh, flash_dispose_overlay_none,
          FrameCaptureService.disposed, VideoEncoderService.disposed,
          VideoDecoderService.disposed, ScreenFlashController.disposed,
          FrameCaptureService.fresh, VideoEncoderService.fresh, VideoDecoderService.fresh,
          MediaStreamTrack.stop]

theorem captureStep_success (env : RunEnv) (o : WebCodecsOrchestrator) (i v : Nat)
    (hr : o.frameCaptureService.isReading = true)
    (hh : o.frameCaptureService.hasReader = true)
    (he : o.encoderService.encoder = some .configured)
    (hd : env.encoderDiesAt = none) :
    (captureStep env o i v).2 = none ∧
    (captureStep env o i v).1.encoderService.encoder = some .configured ∧
    (captureStep env o i v).1.encoderService.encodedChunks
      = o.encoderService.encodedChunks
        ++ [{ timestamp := env.frameTimestamp i, type := if i == 0 then .key else .delta }] ∧
    (captureStep env o i v).1.capturedFramesForValidation
      = o.capturedFramesForValidation
        ++ (if o.hasFaceDetection && (i % VALIDATION_FRAME_SAMPLING_RATE == 0) then
              [{ timestamp := env.frameTimestamp i, closed := false }]
            else []) ∧
    (captureStep env o i v).1.frameCaptureService.isReading = true ∧
    (captureStep env o i v).1.frameCaptureService.hasReader = true ∧
    (captureStep env o i v).1.hasFaceDetection = o.hasFaceDetection ∧
    (captureStep env o i v).1.apiKey = o.apiKey ∧
    (captureStep env o i v).1.validationResults = o.validationResults ∧
    (captureStep env o i v).1.mediaStream = o.mediaStream ∧
    (captureStep env o i v).1.decoderService = o.decoderService := by
  unfold captureStep
  simp only [FrameCaptureService.producerDelivers, hr, hh, Bool.and_self, if_true,
    FrameCaptureService.captureFrame, VideoFrame.clone, hd]
  by_cases hs : o.hasFaceDetection = true ∧ i % VALIDATION_FRAME_SAMPLING_RATE = 0 <;>
    simp [hs, VideoEncoderService.encodeFrame, he, hostEncode, VideoFrame.close,
          VideoEncoderService.handleEncodedChunk]

theorem captureLoop_one (env : RunEnv) (interval settle : Nat)
    (o o1 : WebCodecsOrchestrator) (v i : Nat)
    (hstep : captureStep env o i v = (o1, none)) :
    captureLoop env interval settle o [v] i = (o1, settle, none) := by
  simp only [captureLoop, hstep]

theorem captureLoop_cons (env : RunEnv) (interval settle : Nat)
    (o o1 : WebCodecsOrchestrator) (v w i : Nat) (ws : List Nat)
    (hstep : captureStep env o i v = (o1, none)) :
    captureLoop env interval settle o (v :: w :: ws) i
      = ((captureLoop env interval settle o1 (w :: ws) (i + 1)).1,
         settle + (interval - settle) + (captureLoop env interval settle o1 (w :: ws) (i + 1)).2.1,
         (captureLoop env interval settle o1 (w :: ws) (i + 1)).2.2) := by
  simp only [captureLoop, hstep]

theorem captureLoop_spec (env : RunEnv) (interval settle : Nat) (pattern : List Nat) :
    ∀ (o : WebCodecsOrchestrator) (i : Nat),
    o.frameCaptureService.isReading = true →
    o.frameCaptureService.hasReader = true →
    o.encoderService.encoder = some .configured →
    env.encoderDiesAt = none →
    (captureLoop env interval settle o pattern i).2.2 = none ∧
    (captureLoop env interval settle o pattern i).2.1
      = pattern.length * settle + (pattern.length - 1) * (interval - settle) ∧
    (captureLoop env interval settle o pattern i).1.encoderService.encoder = some .configured ∧
    (captureLoop env interval settle o pattern i).1.encoderService.encodedChunks
      = o.encoderService.encodedChunks ++ expectedChunks env i pattern ∧
    (captureLoop env interval settle o pattern i).1.capturedFramesForValidation
      = o.capturedFramesForValidation
        ++ (if o.hasFaceDetection then expectedSamples env i pattern else []) ∧
    (captureLoop env interval settle o pattern i).1.frameCaptureService.isReading = true ∧
    (captureLoop env interval settle o pattern i).1.frameCaptureService.hasReader = true ∧
    (captureLoop env interval settle o pattern i).1.hasFaceDetection = o.hasFaceDetection ∧
    (captureLoop env interval settle o pattern i).1.apiKey = o.apiKey ∧
    (captureLoop env interval settle o pattern i).1.validationResults = o.validationResults ∧
    (captureLoop env interval settle o pattern i).1.mediaStream = o.mediaStream ∧
    (captureLoop env interval settle o pattern i).1.decoderService = o.decoderService := by
  induction pattern with
  | nil =>
    intro o i hr hh he hd
    simp [captureLoop, expectedChunks, expectedSamples, he, hr, hh]
  | cons v rest ih =>
    intro o i hr hh he hd
    obtain ⟨hstep_err, hstep_enc, hstep_chunks, hstep_cap, hstep_ir, hstep_hr,
            hstep_fd, hstep_key, hstep_vr, hstep_ms, hstep_dec⟩ :=
      captureStep_success env o i v hr hh he hd
    rcases hstep : captureStep env o i v with ⟨o1, err⟩
    rw [hstep] at hstep_err hstep_enc hstep_chunks hstep_cap hstep_ir hstep_hr hstep_fd hstep_key hstep_vr hstep_ms hstep_dec
    dsimp only at hstep_err hstep_enc hstep_chunks hstep_cap hstep_ir hstep_hr hstep_fd hstep_key hstep_vr hstep_ms hstep_dec
    subst hstep_err
    cases rest with
    | nil =>
      rw [captureLoop_one env interval settle o o1 v i hstep]
      refine ⟨rfl, by simp, hstep_enc, ?_, ?_, hstep_ir, hstep_hr, hstep_fd,
        hstep_key, hstep_vr, hstep_ms, hstep_dec⟩
      · simp [hstep_chunks, expectedChunks]
      · rw [hstep_cap]
        cases hfd : o.hasFaceDetection <;>
          simp [expectedSamples, hfd]
    | cons w ws =>
      obtain ⟨ih_err, ih_slept, ih_enc, ih_chunks, ih_cap, ih_ir, ih_hr,
              ih_fd, ih_key, ih_vr, ih_ms, ih_dec⟩ :=
        ih o1 (i + 1) hstep_ir hstep_hr hstep_enc hd
      rw [captureLoop_cons env interval settle o o1 v w i ws hstep]
      dsimp only
      refine ⟨ih_err, ?_, ih_enc, ?_, ?_, ih_ir, ih_hr, ?_, ?_, ?_, ?_, ?_⟩
      · rw [ih_slept]
        simp only [List.length_cons, Nat.add_sub_cancel]
        ring
      · rw [ih_chunks, hstep_chunks]
        simp [expectedChunks, List.append_assoc]
      · rw [ih_cap, hstep_cap, hstep_fd]
        cases hfd : o.hasFaceDetection <;>
          simp [expectedSamples, hfd, List.append_assoc]
      · rw [ih_fd, hstep_fd]
      · rw [ih_key, hstep_key]
      · rw [ih_vr, hstep_vr]
      · rw [ih_ms, hstep_ms]
      · rw [ih_dec, hstep_dec]

theorem flush_configured (s : VideoEncoderService)
    (h : s.encoder = some .configured) : s.flush = (s, none) := by
  unfold VideoEncoderService.flush
  rw [h]
  rfl

theorem captureAndEncodeFrames_spec (o : WebCodecsOrchestrator) (env : RunEnv)
    (hr : o.frameCaptureService.isReading = true)
    (hh : o.frameCaptureService.hasReader = true)
    (he : o.encoderService.encoder = some .configured)
    (hd : env.encoderDiesAt = none) :
    (o.captureAndEncodeFrames env).2.2 = none ∧
    (o.captureAndEncodeFrames env).2.1
      = FLASH_PATTERN.length * FLASH_DISPLAY_DELAY_MS
        + (FLASH_PATTERN.length - 1) * (FRAME_INTERVAL_MS - FLASH_DISPLAY_DELAY_MS) ∧
    (o.captureAndEncodeFrames env).1.encoderService.encodedChunks
      = o.encoderService.encodedChunks ++ expectedChunks env 0 FLASH_PATTERN ∧
    (o.captureAndEncodeFrames env).1.capturedFramesForValidation
      = (if o.hasFaceDetection then expectedSamples env 0 FLASH_PATTERN else []) ∧
    (o.captureAndEncodeFrames env).1.hasFaceDetection = o.hasFaceDetection ∧
    (o.captureAndEncodeFrames env).1.apiKey = o.apiKey ∧
    (o.captureAndEncodeFrames env).1.validationResults = o.validationResults ∧
    (o.captureAndEncodeFrames env).1.mediaStream = o.mediaStream := by
  unfold WebCodecsOrchestrator.captureAndEncodeFrames
  dsimp only
  obtain ⟨l_err, l_slept, l_enc, l_chunks, l_cap, l_ir, l_hr, l_fd, l_key, l_vr, l_ms, l_dec⟩ :=
    captureLoop_spec env FRAME_INTERVAL_MS FLASH_DISPLAY_DELAY_MS FLASH_PATTERN
      { o with flashController := o.flashController.show, capturedFramesForValidation := [] }
      0 hr hh he hd
  rcases hl : captureLoop env FRAME_INTERVAL_MS FLASH_DISPLAY_DELAY_MS
      { o with flashController := o.flashController.show, capturedFramesForValidation := [] }
      FLASH_PATTERN 0 with ⟨o2, slept, err⟩
  rw [hl] at l_err l_slept l_enc l_chunks l_cap l_ir l_hr l_fd l_key l_vr l_ms l_dec
  dsimp only at l_err l_slept l_enc l_chunks l_cap l_ir l_hr l_fd l_key l_vr l_ms l_dec
  subst l_err
  dsimp only
  have hflush : VideoEncoderService.flush
      ({ o2 with flashController := o2.flashController.hide }).encoderService
      = (o2.encoderService, none) := flush_configured _ l_enc
  simp only [hflush]
  exact ⟨rfl, l_slept, l_chunks, by simpa using l_cap, l_fd, l_key, l_vr, l_ms⟩

theorem expectedChunks_length (env : RunEnv) (pattern : List Nat) :
    ∀ i, (expectedChunks env i pattern).length = pattern.length := by
  induction pattern with
  | nil => intro i; simp [expectedChunks]
  | cons v rest ih => intro i; simp [expectedChunks, ih]

theorem expectedChunks_map_type_pos (env : RunEnv) (pattern : List Nat) :
    ∀ i, i ≠ 0 → (expectedChunks env i pattern).map EncodedChunk.type
      = List.replicate pattern.length ChunkType.delta := by
  induction pattern with
  | nil => intro i _; simp [expectedChunks]
  | cons v rest ih =>
    intro i hi
    simp [expectedChunks, hi, List.replicate_succ, ih (i + 1) (by omega)]

theorem expectedChunks_map_type_zero (env : RunEnv) (v : Nat) (rest : List Nat) :
    (expectedChunks env 0 (v :: rest)).map EncodedChunk.type
      = ChunkType.key :: List.replicate rest.length ChunkType.delta := by
  simp [expectedChunks, expectedChunks_map_type_pos env rest 1 (by omega)]

theorem expectedSamples_length (env : RunEnv) (pattern : List Nat) :
    ∀ i, (expectedSamples env i pattern).length = sampleCount i pattern := by
  induction pattern with
  | nil => intro i; simp [expectedSamples, sampleCount]
  | cons v rest ih =>
    intro i
    by_cases h : i % VALIDATION_FRAME_SAMPLING_RATE = 0
    · simp [expectedSamples, sampleCount, h, ih]
      omega
    · simp [expectedSamples, sampleCount, h, ih]

theorem analyzeFrame_ok_isValid (apiKey : String) (outcome : ClassifierOutcome)
    (r : IFaceDetectionResult) (h : analyzeFrame apiKey outcome = .ok r) :
    r.isValid = (r.hasFace && r.isFacingCamera) := by
  cases outcome <;> simp only [analyzeFrame] at h <;> split_ifs at h <;>
    first
      | exact Except.noConfusion h
      | (injection h with h1; subst h1; rfl)

theorem validateGo_spec (apiKey : String) (outcome : Nat → ClassifierOutcome)
    (frames : List VideoFrame) :
    ∀ i, (∀ j, j < frames.length → isOkB (analyzeFrame apiKey (outcome (i + j))) = true) →
    (validateGo apiKey outcome frames i).2 = none ∧
    (validateGo apiKey outcome frames i).1.map Except.ok
      = (List.range frames.length).map (fun j => analyzeFrame apiKey (outcome (i + j))) := by
  induction frames with
  | nil => intro i _; simp [validateGo]
  | cons f rest ih =>
    intro i h
    have h0 := h 0 (by simp)
    rw [Nat.add_zero] at h0
    rcases hA : analyzeFrame apiKey (outcome i) with e | r
    · rw [hA] at h0
      simp [isOkB] at h0
    · obtain ⟨ih_err, ih_map⟩ := ih (i + 1) (fun j hj => by
        have hj1 := h (j + 1) (by simpa using Nat.succ_lt_succ hj)
        have : i + (j + 1) = i + 1 + j := by omega
        rwa [this] at hj1)
      simp only [validateGo, hA]
      refine ⟨ih_err, ?_⟩
      simp only [List.map_cons, List.length_cons, List.range_succ_eq_map, List.map_map]
      rw [ih_map]
      refine congrArg₂ _ hA.symm ?_
      apply List.map_congr_left
      intro j _
      simp only [Function.comp_apply]
      have : i + 1 + j = i + (j + 1) := by omega
      rw [this]

theorem cleanup_fst (o : WebCodecsOrchestrator) :
    (o.cleanup).1 =
      { mediaStream := none, validationResults := o.validationResults,
        capturedFramesForValidation := [],
        frameCaptureService := FrameCaptureService.fresh,
        encoderService := VideoEncoderService.fresh,
        decoderService := VideoDecoderService.fresh,
        flashController := { overlay := none },
        hasFaceDetection := o.hasFaceDetection, apiKey := o.apiKey } := by
  unfold WebCodecsOrchestrator.cleanup
  cases hm : o.mediaStream <;>
    simp [frameCapture_dispose_eq_fresh, encoder_dispose_eq_fresh,
          decoder_dispose_eq_fresh, flash_dispose_overlay_none]

/-! ## Claims -/

/-- C1: whenever any phase of `execute` fails with an error, cleanup still
runs — the frame capture service, encoder, decoder and flash controller end
up disposed, the media stream is dropped and every track of the stream the
orchestrator held is stopped — and the error the caller receives is exactly
the original phase error. -/
theorem execute_cleanup_on_phase_error (o : WebCodecsOrchestrator) (env : RunEnv)
    (e : RunError) (h : (o.runPhases env).2 = some e) :
    (o.execute env).2.2 = some e ∧
    (o.execute env).1.frameCaptureService.disposed ∧
    (o.execute env).1.encoderService.disposed ∧
    (o.execute env).1.decoderService.disposed ∧
    (o.execute env).1.flashController.disposed ∧
    (o.execute env).1.mediaStream = none ∧
    (∀ t ∈ (o.execute env).2.1, t.stopped = true) ∧
    (∀ s, (o.runPhases env).1.mediaStream = some s →
      (o.execute env).2.1 = s.tracks.map MediaStreamTrack.stop) := by
  obtain ⟨c1, c2, c3, c4, _, c6, c7, c8⟩ := cleanup_spec (o.runPhases env).1
  unfold WebCodecsOrchestrator.execute
  dsimp only
  exact ⟨h, c1, c2, c3, c4, c6, c7, c8⟩

/-- C1 witness: a run whose host encoder dies before capture step 3 fails
with the encoder's bad-state error, is fully cleaned up, and the acquired
stream's track comes back stopped. -/
theorem execute_cleanup_on_phase_error_witness :
    (baseOrchestrator.execute encoderDieEnv).2.2
        = some (RunError.encoder (EncoderError.badState CodecState.closed)) ∧
    (baseOrchestrator.execute encoderDieEnv).1.frameCaptureService.disposed ∧
    (baseOrchestrator.execute encoderDieEnv).1.encoderService.disposed ∧
    (baseOrchestrator.execute encoderDieEnv).1.decoderService.disposed ∧
    (baseOrchestrator.execute encoderDieEnv).1.flashController.disposed ∧
    (baseOrchestrator.execute encoderDieEnv).1.mediaStream = none ∧
    (baseOrchestrator.execute encoderDieEnv).2.1
        = sampleStream.tracks.map MediaStreamTrack.stop := by
  obtain ⟨h1, h2, h3, h4, h5, h6, _, h8⟩ :=
    execute_cleanup_on_phase_error baseOrchestrator encoderDieEnv
      (RunError.encoder (EncoderError.badState CodecState.closed)) (by decide)
  exact ⟨h1, h2, h3, h4, h5, h6, h8 sampleStream (by decide)⟩

/-- C7: `encodeFrame` and `flush` on an encoder service that holds no encoder
(before `initialize`, and always after `dispose`) fail with the
not-initialized error and leave the service state unchanged. -/
theorem encoder_uninitialized_calls_fail (s t : VideoEncoderService)
    (f : VideoFrame) (k : Bool) (h : s.encoder = none) :
    s.encodeFrame f k = (s, f, some EncoderError.notInitialized) ∧
    s.flush = (s, some EncoderError.notInitialized) ∧
    VideoEncoderService.fresh.encoder = none ∧
    (t.dispose).encoder = none := by
  refine ⟨?_, ?_, rfl, ?_⟩
  · unfold VideoEncoderService.encodeFrame
    rw [h]
  · unfold VideoEncoderService.flush
    rw [h]
  · rw [encoder_dispose_eq_fresh]
    rfl

/-- C7 witness: an encoder that was initialized and then disposed rejects
`encodeFrame` and `flush` with the not-initialized error, unchanged. -/
theorem encoder_uninitialized_calls_fail_witness :
    (( VideoEncoderService.fresh.initialize true).1.dispose).encodeFrame
        { timestamp := 0, closed := false } true
      = (( VideoEncoderService.fresh.initialize true).1.dispose,
         { timestamp := 0, closed := false }, some EncoderError.notInitialized) ∧
    (( VideoEncoderService.fresh.initialize true).1.dispose).flush
      = (( VideoEncoderService.fresh.initialize true).1.dispose,
         some EncoderError.notInitialized) := by
  obtain ⟨h1, h2, _, _⟩ :=
    encoder_uninitialized_calls_fail (( VideoEncoderService.fresh.initialize true).1.dispose)
      VideoEncoderService.fresh { timestamp := 0, closed := false } true (by decide)
  exact ⟨h1, h2⟩

/-- C8: a successful `encodeFrame` closes the input frame before returning;
a failed `encodeFrame` (not initialized or bad state) leaves the input frame
untouched, so ownership stays with the caller. -/
theorem encodeFrame_frame_ownership (s : VideoEncoderService) (f : VideoFrame)
    (k : Bool) :
    ((s.encodeFrame f k).2.2 = none →
      (s.encodeFrame f k).2.1 = f.close ∧ (s.encodeFrame f k).2.1.closed = true) ∧
    ((s.encodeFrame f k).2.2 ≠ none → (s.encodeFrame f k).2.1 = f) := by
  unfold VideoEncoderService.encodeFrame
  cases hs : s.encoder with
  | none => simp
  | some st =>
    by_cases hc : st = CodecState.configured <;> simp [hc, VideoFrame.close]

/-- C8 witness: encoding on a configured encoder returns the frame closed;
encoding on an uninitialized encoder returns the frame exactly as given. -/
theorem encodeFrame_frame_ownership_witness :
    (( VideoEncoderService.fresh.initialize true).1.encodeFrame
        { timestamp := 3, closed := false } true).2.1.closed = true ∧
    (VideoEncoderService.fresh.encodeFrame
        { timestamp := 3, closed := false } true).2.1
      = { timestamp := 3, closed := false } := by
  constructor
  · exact ((encodeFrame_frame_ownership ( VideoEncoderService.fresh.initialize true).1
      { timestamp := 3, closed := false } true).1 (by decide)).2
  · exact (encodeFrame_frame_ownership VideoEncoderService.fresh
      { timestamp := 3, closed := false } true).2 (by decide)

/-- C9: every component's `dispose` and the orchestrator's `cleanup` are
idempotent — a second dispose/cleanup on an already-disposed state changes
nothing and stops no further tracks. -/
theorem dispose_and_cleanup_idempotent (a : FrameCaptureService)
    (b : VideoEncoderService) (c : VideoDecoderService)
    (d : ScreenFlashController) (o : WebCodecsOrchestrator) :
    a.dispose.dispose = a.dispose ∧
    b.dispose.dispose = b.dispose ∧
    c.dispose.dispose = c.dispose ∧
    d.dispose.dispose = d.dispose ∧
    (o.cleanup).1.cleanup = ((o.cleanup).1, []) := by
  refine ⟨?_, ?_, ?_, ?_, ?_⟩
  · rw [frameCapture_dispose_eq_fresh, frameCapture_dispose_eq_fresh]
  · rw [encoder_dispose_eq_fresh, encoder_dispose_eq_fresh]
  · rw [decoder_dispose_eq_fresh, decoder_dispose_eq_fresh]
  · rw [flash_dispose_overlay_none, flash_dispose_overlay_none]
  · rw [cleanup_fst o]
    unfold WebCodecsOrchestrator.cleanup
    simp [frameCapture_dispose_eq_fresh, encoder_dispose_eq_fresh,
          decoder_dispose_eq_fresh, flash_dispose_overlay_none]

/-- C10: after `dispose`, `captureFrame` fails with the same
no-frame-available error as before the first frame was observed, because
dispose empties the current-frame slot; it never returns a frame. -/
theorem captureFrame_after_dispose_fails (s : FrameCaptureService) :
    s.dispose.captureFrame = Except.error CaptureError.noFrameAvailable ∧
    s.dispose.currentFrame = none ∧
    FrameCaptureService.fresh.captureFrame = Except.error CaptureError.noFrameAvailable ∧
    (∀ t : FrameCaptureService, t.currentFrame = none →
      t.captureFrame = Except.error CaptureError.noFrameAvailable) := by
  refine ⟨?_, ?_, rfl, ?_⟩
  · rw [frameCapture_dispose_eq_fresh]
    rfl
  · rw [frameCapture_dispose_eq_fresh]
    rfl
  · intro t ht
    unfold FrameCaptureService.captureFrame
    rw [ht]

/-- C10 witness: disposing an initialized capture service makes
`captureFrame` fail with the no-frame-available error. -/
theorem captureFrame_after_dispose_fails_witness :
    (( FrameCaptureService.fresh.initialize sampleStream
        (some { timestamp := 0, closed := false })).1.dispose).captureFrame
      = Except.error CaptureError.noFrameAvailable ∧
    (( FrameCaptureService.fresh.initialize sampleStream
        (some { timestamp := 0, closed := false })).1.dispose).currentFrame = none ∧
    FrameCaptureService.fresh.captureFrame
      = Except.error CaptureError.noFrameAvailable := by
  obtain ⟨h1, h2, _, h4⟩ :=
    captureFrame_after_dispose_fails
      ( FrameCaptureService.fresh.initialize sampleStream
        (some { timestamp := 0, closed := false })).1
  exact ⟨h1, h2, h4 FrameCaptureService.fresh (by decide)⟩

/-- C2 counterexample: with a classifier configured, a single classifier-call
timeout at the first sampled frame propagates out of the validation loop and
aborts the whole run — no non-fatal invalid result is produced for it. -/
theorem classifier_timeout_aborts_run :
    (baseOrchestrator.runPhases timeoutEnv).2
        = some (RunError.analyze AnalyzeError.timedOut) ∧
    (baseOrchestrator.runPhases timeoutEnv).1.validationResults = [] := by
  decide

/-- C2 (amended): an error from an individual classifier call is converted
into a non-fatal all-false result carrying the failure reason only when it is
not a timeout, not an API-key/authorization error, and not a rate-limit
error; those three kinds are re-thrown (the validation loop has no catch, so
they abort the run). -/
theorem classifier_error_downgrade_policy (apiKey : String)
    (outcome : ClassifierOutcome) (hk : apiKey ≠ "") :
    (∀ e, analyzeFrame apiKey outcome = .error e →
       e = AnalyzeError.timedOut ∨ e = AnalyzeError.invalidApiKey ∨
       e = AnalyzeError.rateLimited) ∧
    analyzeFrame apiKey .timeout = .error AnalyzeError.timedOut ∧
    (outcome.isFailure = true → outcome ≠ .timeout →
      strContains outcome.message "API key" = false →
      strContains outcome.message "Unauthorized" = false →
      strContains outcome.message "rate limit" = false →
      strContains outcome.message "429" = false →
      analyzeFrame apiKey outcome = .ok
        { isValid := false, hasFace := false, isFacingCamera := false,
          wearingGlasses := false, wearingHeadwear := false, confidence := 0,
          reason := "Analysis failed: " ++ outcome.message }) := by
  refine ⟨?_, ?_, ?_⟩
  · intro e he
    cases outcome <;> simp only [analyzeFrame, if_neg hk] at he <;>
      (try split_ifs at he) <;>
      first
        | exact Except.noConfusion he
        | (injection he with he1; subst he1; simp)
  · simp [analyzeFrame, hk]
  · intro hf ht h1 h2 h3 h4
    cases outcome with
    | responds a1 a2 a3 a4 a5 a6 => exact absurd hf (by simp [ClassifierOutcome.isFailure])
    | timeout => exact absurd rfl ht
    | apiError msg => simp [analyzeFrame, hk, h1, h2, h3, h4]
    | parseFailure content => simp [analyzeFrame, hk, h1, h2, h3, h4]
    | missingFields => simp [analyzeFrame, hk, h1, h2, h3, h4]
    | otherFailure msg => simp [analyzeFrame, hk, h1, h2, h3, h4]

/-- C2 amended witness: a generic server failure is downgraded to an invalid
result with the failure reason, while a timeout is re-thrown. -/
theorem classifier_error_downgrade_policy_witness :
    analyzeFrame "k" (ClassifierOutcome.apiError "server exploded")
      = Except.ok { isValid := false, hasFace := false, isFacingCamera := false,
                    wearingGlasses := false, wearingHeadwear := false, confidence := 0,
                    reason := "Analysis failed: OpenAI API error: server exploded" } ∧
    analyzeFrame "k" ClassifierOutcome.timeout
      = Except.error AnalyzeError.timedOut := by
  obtain ⟨_, h2, h3⟩ := classifier_error_downgrade_policy "k"
    (ClassifierOutcome.apiError "server exploded") (by decide)
  refine ⟨?_, h2⟩
  have h := h3 (by decide) (by decide) (by decide) (by decide) (by decide) (by decide)
  simpa [ClassifierOutcome.message] using h

/-- C3 counterexample: the decoder service's `decodeAndRender`, called on an
initialized decoder with an empty chunk sequence, completes without error
rather than failing with a no-chunks error. -/
theorem decode_empty_chunks_no_failure :
    (( VideoDecoderService.fresh.initialize true).1.decodeAndRender []).2
      = Except.ok [] := by
  rfl

/-- C3 (amended): the decoder service's `decodeAndRender` before `initialize`
fails with the not-initialized error; on an initialized decoder an empty
chunk sequence completes without error, rendering nothing; the empty-input
guard lives in the orchestrator's decode step, which fails with its
no-encoded-chunks error when zero chunks were accumulated. -/
theorem decoder_guard_locations (s : VideoDecoderService)
    (o : WebCodecsOrchestrator) (env : RunEnv) (chunks : List EncodedChunk)
    (h1 : s.decoder = none) (h2 : o.encoderService.encodedChunks = []) :
    (s.decodeAndRender chunks).2 = Except.error DecoderError.notInitialized ∧
    (∀ st : CodecState,
      VideoDecoderService.decodeAndRender { decoder := some st, decodedFrames := [] } []
        = ({ decoder := some st, decodedFrames := [] }, Except.ok [])) ∧
    o.decodeAndRender env = (o, some RunError.noEncodedChunks) := by
  refine ⟨?_, ?_, ?_⟩
  · unfold VideoDecoderService.decodeAndRender
    rw [h1]
  · intro st
    rfl
  · unfold WebCodecsOrchestrator.decodeAndRender VideoEncoderService.getEncodedChunks
    rw [h2]
    rfl

/-- C3 amended witness: a fresh decoder rejects `decodeAndRender`; an
orchestrator whose encoder accumulated nothing fails its decode step with the
no-encoded-chunks error. -/
theorem decoder_guard_locations_witness :
    (VideoDecoderService.fresh.decodeAndRender []).2
        = Except.error DecoderError.notInitialized ∧
    VideoDecoderService.decodeAndRender
        { decoder := some CodecState.configured, decodedFrames := [] } []
      = ({ decoder := some CodecState.configured, decodedFrames := [] }, Except.ok []) ∧
    baseOrchestrator.decodeAndRender nominalEnv
      = (baseOrchestrator, some RunError.noEncodedChunks) := by
  obtain ⟨h1, h2, h3⟩ := decoder_guard_locations VideoDecoderService.fresh
    baseOrchestrator nominalEnv [] (by decide) (by decide)
  exact ⟨h1, h2 CodecState.configured, h3⟩

/-- C4 counterexample: for the code's pattern (length 20) and total duration
10000ms, the summed waits of the capture sequence are 9550ms, not 10000ms. -/
theorem capture_sleep_total_ne_total_duration :
    (readyOrchestrator.captureAndEncodeFrames nominalEnv).2.2 = none ∧
    (readyOrchestrator.captureAndEncodeFrames nominalEnv).2.1 = 9550 ∧
    (9550 : Nat) ≠ TOTAL_DURATION_MS := by
  decide

/-- C4 (amended): each of the L steps waits the settle delay plus, except
after the final step, the remainder of the per-step interval, so the summed
waits equal `L·settle + (L−1)·(interval−settle)` — for the code's constants
(L = 20, interval = 500ms, settle = 50ms) that is 9550ms, which is the total
duration minus one `interval − settle` remainder, not 10000ms. -/
theorem capture_sequence_sleep_total (env : RunEnv) (o : WebCodecsOrchestrator)
    (interval settle : Nat) (pattern : List Nat)
    (hr : o.frameCaptureService.isReading = true)
    (hh : o.frameCaptureService.hasReader = true)
    (he : o.encoderService.encoder = some CodecState.configured)
    (hd : env.encoderDiesAt = none) :
    (captureLoop env interval settle o pattern 0).2.2 = none ∧
    (captureLoop env interval settle o pattern 0).2.1
      = pattern.length * settle + (pattern.length - 1) * (interval - settle) ∧
    (o.captureAndEncodeFrames env).2.2 = none ∧
    (o.captureAndEncodeFrames env).2.1
      = FRAME_COUNT * FLASH_DISPLAY_DELAY_MS
        + (FRAME_COUNT - 1) * (FRAME_INTERVAL_MS - FLASH_DISPLAY_DELAY_MS) ∧
    FRAME_COUNT * FLASH_DISPLAY_DELAY_MS
        + (FRAME_COUNT - 1) * (FRAME_INTERVAL_MS - FLASH_DISPLAY_DELAY_MS)
      = TOTAL_DURATION_MS - (FRAME_INTERVAL_MS - FLASH_DISPLAY_DELAY_MS) ∧
    TOTAL_DURATION_MS - (FRAME_INTERVAL_MS - FLASH_DISPLAY_DELAY_MS) = 9550 := by
  obtain ⟨l_err, l_slept, _⟩ :=
    captureLoop_spec env interval settle pattern o 0 hr hh he hd
  obtain ⟨a_err, a_slept, _⟩ := captureAndEncodeFrames_spec o env hr hh he hd
  exact ⟨l_err, l_slept, a_err, by rw [a_slept]; decide, by decide, by decide⟩

/-- C4 amended witness: on the nominal run the capture phase sleeps exactly
9550ms in total. -/
theorem capture_sequence_sleep_total_witness :
    (captureLoop nominalEnv FRAME_INTERVAL_MS FLASH_DISPLAY_DELAY_MS
        readyOrchestrator FLASH_PATTERN 0).2.2 = none ∧
    (readyOrchestrator.captureAndEncodeFrames nominalEnv).2.1
      = TOTAL_DURATION_MS - (FRAME_INTERVAL_MS - FLASH_DISPLAY_DELAY_MS) := by
  obtain ⟨l_err, _, _, w_slept, w_eq, _⟩ :=
    capture_sequence_sleep_total nominalEnv readyOrchestrator
      FRAME_INTERVAL_MS FLASH_DISPLAY_DELAY_MS FLASH_PATTERN
      (by decide) (by decide) (by decide) (by decide)
  exact ⟨l_err, by rw [w_slept, w_eq]⟩

theorem expectedChunks_map_type_head (env : RunEnv) (pattern : List Nat)
    (h : pattern ≠ []) :
    (expectedChunks env 0 pattern).map EncodedChunk.type
      = ChunkType.key :: List.replicate (pattern.length - 1) ChunkType.delta := by
  cases pattern with
  | nil => exact absurd rfl h
  | cons v rest => simpa using expectedChunks_map_type_zero env v rest

/-- C5: a completed capture session accumulates exactly one encoded chunk per
capture point of the flash pattern (20 for the code's pattern), and only the
very first frame is submitted with the keyframe flag, so the chunk kinds are
`key` followed by `delta` for every later chunk. -/
theorem capture_chunk_count_and_first_key (o : WebCodecsOrchestrator) (env : RunEnv)
    (hr : o.frameCaptureService.isReading = true)
    (hh : o.frameCaptureService.hasReader = true)
    (he : o.encoderService.encoder = some CodecState.configured)
    (hc : o.encoderService.encodedChunks = [])
    (hd : env.encoderDiesAt = none) :
    (o.captureAndEncodeFrames env).2.2 = none ∧
    (o.captureAndEncodeFrames env).1.encoderService.encodedChunks.length
      = FLASH_PATTERN.length ∧
    FLASH_PATTERN.length = FRAME_COUNT ∧
    (o.captureAndEncodeFrames env).1.encoderService.encodedChunks.map EncodedChunk.type
      = ChunkType.key :: List.replicate (FRAME_COUNT - 1) ChunkType.delta := by
  obtain ⟨a_err, _, a_chunks, _, _, _, _, _⟩ :=
    captureAndEncodeFrames_spec o env hr hh he hd
  refine ⟨a_err, ?_, by decide, ?_⟩
  · rw [a_chunks, hc]
    simp [expectedChunks_length]
  · rw [a_chunks, hc]
    rw [List.nil_append, expectedChunks_map_type_head env FLASH_PATTERN (by decide)]
    rfl

/-- C5 witness: the nominal run accumulates exactly 20 chunks, the first of
kind `key` and the remaining 19 of kind `delta`. -/
theorem capture_chunk_count_and_first_key_witness :
    (readyOrchestrator.captureAndEncodeFrames nominalEnv).2.2 = none ∧
    (readyOrchestrator.captureAndEncodeFrames nominalEnv).1.encoderService.encodedChunks.length
      = FLASH_PATTERN.length ∧
    (readyOrchestrator.captureAndEncodeFrames nominalEnv).1.encoderService.encodedChunks.map EncodedChunk.type
      = ChunkType.key :: List.replicate (FRAME_COUNT - 1) ChunkType.delta := by
  obtain ⟨h1, h2, _, h4⟩ :=
    capture_chunk_count_and_first_key readyOrchestrator nominalEnv
      (by decide) (by decide) (by decide) (by decide) (by decide)
  exact ⟨h1, h2, h4⟩

theorem validateCapturedFrames_spec (o : WebCodecsOrchestrator) (env : RunEnv)
    (hfd : o.hasFaceDetection = true) (hne : o.capturedFramesForValidation ≠ [])
    (hok : ∀ j, j < o.capturedFramesForValidation.length →
      isOkB (analyzeFrame o.apiKey (env.classifierOutcome j)) = true) :
    (o.validateCapturedFrames env).2 = none ∧
    (o.validateCapturedFrames env).1.validationResults.map Except.ok
      = (List.range o.capturedFramesForValidation.length).map
          (fun j => analyzeFrame o.apiKey (env.classifierOutcome j)) := by
  obtain ⟨g_err, g_map⟩ := validateGo_spec o.apiKey env.classifierOutcome
    o.capturedFramesForValidation 0 (fun j hj => by simpa using hok j hj)
  unfold WebCodecsOrchestrator.validateCapturedFrames
  rw [if_neg (by simp [hfd, hne])]
  rcases hv : validateGo o.apiKey env.classifierOutcome o.capturedFramesForValidation 0
    with ⟨results, errv⟩
  rw [hv] at g_err g_map
  dsimp only at g_err g_map ⊢
  subst g_err
  exact ⟨rfl, by simpa using g_map⟩

/-- C6: a run with a configured classifier over the 20-point flash pattern
samples every 5th capture point, yielding exactly 4 sampled frames; when the
classifier answers each call, exactly 4 validation results are produced, in
sampling order (result `j` is the classifier's answer for sampled frame `j`),
and each result's `isValid` is true iff both `hasFace` and `isFacingCamera`
are true. -/
theorem validation_order_count_isValid (o : WebCodecsOrchestrator) (env : RunEnv)
    (hfd : o.hasFaceDetection = true)
    (hr : o.frameCaptureService.isReading = true)
    (hh : o.frameCaptureService.hasReader = true)
    (he : o.encoderService.encoder = some CodecState.configured)
    (hd : env.encoderDiesAt = none)
    (hok : ∀ j, j < 4 → isOkB (analyzeFrame o.apiKey (env.classifierOutcome j)) = true) :
    (o.captureAndEncodeFrames env).1.capturedFramesForValidation.length = 4 ∧
    ((o.captureAndEncodeFrames env).1.validateCapturedFrames env).2 = none ∧
    ((o.captureAndEncodeFrames env).1.validateCapturedFrames env).1.validationResults.length
      = 4 ∧
    ((o.captureAndEncodeFrames env).1.validateCapturedFrames env).1.validationResults.map
        Except.ok
      = (List.range 4).map (fun j => analyzeFrame o.apiKey (env.classifierOutcome j)) ∧
    (∀ r ∈ ((o.captureAndEncodeFrames env).1.validateCapturedFrames env).1.validationResults,
      r.isValid = (r.hasFace && r.isFacingCamera)) := by
  obtain ⟨a_err, a_slept, a_chunks, a_cap, a_fd, a_key, a_vr, a_ms⟩ :=
    captureAndEncodeFrames_spec o env hr hh he hd
  rw [hfd, if_pos rfl] at a_cap
  have hlen : (o.captureAndEncodeFrames env).1.capturedFramesForValidation.length = 4 := by
    rw [a_cap, expectedSamples_length]
    decide
  have hfd2 : (o.captureAndEncodeFrames env).1.hasFaceDetection = true := by
    rw [a_fd, hfd]
  have hne : (o.captureAndEncodeFrames env).1.capturedFramesForValidation ≠ [] := by
    intro hnil
    rw [hnil] at hlen
    simp at hlen
  obtain ⟨v_err, v_map⟩ :=
    validateCapturedFrames_spec (o.captureAndEncodeFrames env).1 env hfd2 hne
      (fun j hj => by
        rw [hlen] at hj
        rw [a_key]
        exact hok j hj)
  rw [hlen, a_key] at v_map
  have hrl : ((o.captureAndEncodeFrames env).1.validateCapturedFrames env).1.validationResults.length = 4 := by
    have := congrArg List.length v_map
    simpa using this
  refine ⟨hlen, v_err, hrl, v_map, ?_⟩
  intro r hrmem
  have hmem : Except.ok r ∈
      ((o.captureAndEncodeFrames env).1.validateCapturedFrames env).1.validationResults.map
        (Except.ok (ε := AnalyzeError)) :=
    List.mem_map_of_mem _ hrmem
  rw [v_map] at hmem
  obtain ⟨j, _, hj⟩ := List.mem_map.1 hmem
  exact analyzeFrame_ok_isValid o.apiKey (env.classifierOutcome j) r hj

/-- C6 witness: on the nominal run with the configured classifier, 4 frames
are sampled, 4 results come back in order, and each is valid iff it reports a
face facing the camera. -/
theorem validation_order_count_isValid_witness :
    (readyOrchestrator.captureAndEncodeFrames nominalEnv).1.capturedFramesForValidation.length
      = 4 ∧
    ((readyOrchestrator.captureAndEncodeFrames nominalEnv).1.validateCapturedFrames
        nominalEnv).2 = none ∧
    ((readyOrchestrator.captureAndEncodeFrames nominalEnv).1.validateCapturedFrames
        nominalEnv).1.validationResults.length = 4 := by
  obtain ⟨h1, h2, h3, _, _⟩ :=
    validation_order_count_isValid readyOrchestrator nominalEnv
      (by decide) (by decide) (by decide) (by decide) (by decide) (by decide)
  exact ⟨h1, h2, h3⟩
